import Mathlib

/-
Verification of the ZabbixObjects repository (src/Zabbix.py and
src/ZabbixFactory.py): a shallow embedding of the entity/cache layer
over the Zabbix JSON-RPC API, together with theorems settling the
specified behavioural claims.

Modelling conventions:
 - a Python dict holding an entity field cache is a Dict, an
   association list of string keys and Values; dget, dset, ddel
   and dupdate model dict.get, item assignment, del and dict.update;
 - Python truthiness of a looked-up field is truthy;
 - Python exceptions are the inductive PyExn; a computation that can
   either return or raise is an Outcome;
 - the Remote Session (pyzabbix ZabbixAPI) is an external collaborator:
   each operation that calls it takes the call result (the record list,
   or a failure outcome) as an explicit argument, and the embedding
   counts remote calls in explicit state records.
-/

namespace ZabbixObjects

/-- Values stored in an entity field cache: wire strings, Python ints,
lists of values (sub-resource collections) and nested dicts
(for example the inventory record). -/
inductive Value where
  | vstr : String → Value
  | vint : Int → Value
  | vlist : List Value → Value
  | vdict : List (String × Value) → Value

/-- An entity local field cache, as kept in _z_host, _z_macro, etc. -/
abbrev Dict := List (String × Value)

/-- dict.get: the value at the first matching key, if any. -/
def dget : Dict → String → Option Value
  | [], _ => none
  | (k1, v1) :: t, k => if k1 = k then some v1 else dget t k

/-- dict item assignment d[k] = v: replace in place, else append. -/
def dset : Dict → String → Value → Dict
  | [], k, v => [(k, v)]
  | (k1, v1) :: t, k, v => if k1 = k then (k, v) :: t else (k1, v1) :: dset t k v

/-- del d[k]: remove the key (the caller is responsible for the
KeyError raised when the key is absent). -/
def ddel : Dict → String → Dict
  | [], _ => []
  | (k1, v1) :: t, k => if k1 = k then ddel t k else (k1, v1) :: ddel t k

/-- d.update(other): set every key of other into d, overwriting
existing keys and appending new ones. -/
def dupdate (d other : Dict) : Dict :=
  other.foldl (fun acc p => dset acc p.1 p.2) d

/-- Python truthiness of a value: empty strings, zero and empty
containers are falsy. -/
def truthyV : Value → Bool
  | .vstr s => s != ""
  | .vint n => n != 0
  | .vlist l => !l.isEmpty
  | .vdict d => !d.isEmpty

/-- Python truthiness of a dict.get result (None is falsy). -/
def truthy : Option Value → Bool
  | none => false
  | some v => truthyV v

/-- Decimal digits of a Python int literal (none when empty or when a
non-digit appears). -/
def digitsToNat : List Char → Option Nat
  | [] => none
  | c :: cs =>
    if c.isDigit then
      cs.foldl (fun acc c2 =>
        match acc with
        | none => none
        | some n => if c2.isDigit then some (n * 10 + (c2.toNat - 48)) else none)
        (some (c.toNat - 48))
    else none

/-- Python int(s) on a string: an optional sign and decimal digits;
none models the ValueError raised on anything else. -/
def pyParseInt (s : String) : Option Int :=
  match s.data with
  | [] => none
  | '-' :: cs => (digitsToNat cs).map (fun n => -(n : Int))
  | cs => (digitsToNat cs).map (fun n => (n : Int))

/-- Python int(x) on a cached value: parses wire strings, keeps ints;
anything else (None, lists, dicts) raises and is modelled as none. -/
def pyInt : Value → Option Int
  | .vstr s => pyParseInt s
  | .vint n => some n
  | _ => none

/-- Python str(x) applied to a possibly-absent value, as used by
update_or_create_macro: str(None) is the string None. -/
def pyStr : Option Value → String
  | none => "None"
  | some (.vstr s) => s
  | some (.vint n) => toString n
  | some (.vlist _) => "<list>"
  | some (.vdict _) => "<dict>"

/-- The Python exceptions in play in this repository. -/
inductive PyExn where
  | zabbixAPIException (data : String)
  | indexError
  | keyError
  | attributeError
  | typeError
  | valueError
deriving DecidableEq, Repr

/-- Result of running a Python computation: a normal return or a
raised exception. -/
inductive Outcome (α : Type) where
  | ok : α → Outcome α
  | exn : PyExn → Outcome α

/-- zapi_exception(log_message) from src/Zabbix.py lines 11..24, applied
to the outcome of the wrapped function body.  The wrapper catches
ZabbixAPIException and IndexError and evaluates
log.error(fmt, log_message, e.data):
 - a ZabbixAPIException carries a data payload (py-zabbix sets .data
   from the error response), so the failure is logged and the wrapper
   falls through, returning None;
 - an IndexError has no data attribute, so evaluating e.data inside the
   handler raises AttributeError, which propagates out of the wrapper;
 - any other exception (KeyError from a constructor, etc.) is not
   caught and propagates.
The returned pair is (the wrapper outcome, the log records emitted);
ok (some a) is a normal return of a, ok none is the contained-failure
None return. -/
def zapi_exception (logMessage : String) : Outcome α → Outcome (Option α) × List String
  | .ok a => (.ok (some a), [])
  | .exn (.zabbixAPIException data) => (.ok none, [logMessage ++ ": " ++ data])
  | .exn .indexError => (.exn .attributeError, [])
  | .exn e => (.exn e, [])

/- ------------------------------------------------------------------
C4: entity construction guards.
------------------------------------------------------------------ -/

/-- The entity subtypes of Zabbix.py, each with a required identifier
checked at construction. -/
inductive EntityKind where
  | groupK | macroK | templateK | interfaceK | hostK | triggerK | eventK | problemK | proxyK
deriving DecidableEq, Repr

/-- The identifier field each __init__ requires:
ZabbixGroup groupid (174), ZabbixMacro hostmacroid (214),
ZabbixTemplate templateid (296), ZabbixInterface interfaceid (347),
ZabbixHost hostid (510), ZabbixTrigger triggerid (729),
ZabbixEvent and ZabbixProblem eventid (851), ZabbixProxy proxyid (122). -/
def requiredIdKey : EntityKind → String
  | .groupK => "groupid"
  | .macroK => "hostmacroid"
  | .templateK => "templateid"
  | .interfaceK => "interfaceid"
  | .hostK => "hostid"
  | .triggerK => "triggerid"
  | .eventK => "eventid"
  | .problemK => "eventid"
  | .proxyK => "proxyid"

/-- The common constructor guard of every entity __init__: when the
record lacks a truthy identifier (missing key, empty string, zero), a
KeyError is raised before anything else; otherwise the record becomes
the local cache. -/
def entityInit (k : EntityKind) (record : Dict) : Outcome Dict :=
  if truthy (dget record (requiredIdKey k)) then .ok record else .exn .keyError

/- ------------------------------------------------------------------
C2: write-through setters.
------------------------------------------------------------------ -/

/-- Setter pattern of ZabbixMacro.name (257..260), ZabbixMacro.value
(268..271), ZabbixInterface.dns (382..385), ZabbixInterface.ip
(399..402) and ZabbixInterface.useip (436..440): the body calls
self._update(field=value) where _update is itself wrapped by
zapi_exception, then assigns the local cache unconditionally.  Because
a remote ZabbixAPIException is contained inside _update, control
reaches the assignment even when the remote update failed.  remote is
the outcome of the remote update call. -/
def containedUpdateThenAssign (cache : Dict) (key msg : String)
    (remote : Outcome Unit) (v : Value) : Outcome Dict × List String :=
  match zapi_exception msg remote with
  | (.ok _, logs) => (.ok (dset cache key v), logs)
  | (.exn e, logs) => (.exn e, logs)

/-- ZabbixMacro.value setter (268..271). -/
def macroSetValue (zm : Dict) (remote : Outcome Unit) (v : Value) :
    Outcome Dict × List String :=
  containedUpdateThenAssign zm "value" "Ошибка обновления данных макроса" remote v

/-- ZabbixMacro.name setter (257..260): assigns the macro field. -/
def macroSetName (zm : Dict) (remote : Outcome Unit) (v : Value) :
    Outcome Dict × List String :=
  containedUpdateThenAssign zm "macro" "Ошибка обновления данных макроса" remote v

/-- ZabbixInterface.dns setter (382..385). -/
def interfaceSetDns (zi : Dict) (remote : Outcome Unit) (v : Value) :
    Outcome Dict × List String :=
  containedUpdateThenAssign zi "dns" "Ошибка обновления данных Zabbix интерфейса" remote v

/-- ZabbixInterface.ip setter (399..402). -/
def interfaceSetIp (zi : Dict) (remote : Outcome Unit) (v : Value) :
    Outcome Dict × List String :=
  containedUpdateThenAssign zi "ip" "Ошибка обновления данных Zabbix интерфейса" remote v

/-- ZabbixInterface.useip setter (436..440). -/
def interfaceSetUseip (zi : Dict) (remote : Outcome Unit) (v : Value) :
    Outcome Dict × List String :=
  containedUpdateThenAssign zi "useip" "Ошибка обновления данных Zabbix интерфейса" remote v

/-- Setter pattern of ZabbixHost.host (475..481) and ZabbixHost.name
(489..495): ZabbixHost._update is NOT decorated, and the setter itself
wraps both the update and the assignment in try/except
ZabbixAPIException, so on failure the assignment is skipped and the
cache is unchanged. -/
def tryExceptSetter (zh : Dict) (key msg : String) (remote : Outcome Unit)
    (v : Value) : Outcome Dict × List String :=
  match remote with
  | .ok _ => (.ok (dset zh key v), [])
  | .exn (.zabbixAPIException d) => (.ok zh, [msg ++ ": " ++ d])
  | .exn e => (.exn e, [])

/-- ZabbixHost.host setter (475..481). -/
def hostSetHost (zh : Dict) (remote : Outcome Unit) (v : Value) :
    Outcome Dict × List String :=
  tryExceptSetter zh "host" "Ошибка переименовывания" remote v

/-- ZabbixHost.name setter (489..495). -/
def hostSetName (zh : Dict) (remote : Outcome Unit) (v : Value) :
    Outcome Dict × List String :=
  tryExceptSetter zh "name" "Ошибка смены имени" remote v

/-- Setter pattern of ZabbixHost.status (550..554) and
ZabbixHost.proxy_hostid (659..664): the whole setter body (the bare
_update, then the assignment) is wrapped by zapi_exception, so a remote
failure raised by _update skips the assignment and is contained at
the setter boundary with the cache unchanged. -/
def decoratedSetter (zh : Dict) (key msg : String) (remote : Outcome Unit)
    (v : Value) : Outcome Dict × List String :=
  let body : Outcome Dict :=
    match remote with
    | .ok _ => .ok (dset zh key v)
    | .exn e => .exn e
  match zapi_exception msg body with
  | (.ok (some d), logs) => (.ok d, logs)
  | (.ok none, logs) => (.ok zh, logs)
  | (.exn e, logs) => (.exn e, logs)

/-- ZabbixHost.status setter (550..554). -/
def hostSetStatus (zh : Dict) (remote : Outcome Unit) (v : Value) :
    Outcome Dict × List String :=
  decoratedSetter zh "status" "Ошибка смены статуса" remote v

/-- ZabbixHost.proxy_hostid setter (659..664). -/
def hostSetProxyHostid (zh : Dict) (remote : Outcome Unit) (v : Value) :
    Outcome Dict × List String :=
  decoratedSetter zh "proxy_hostid" "Ошибка переноса на прокси" remote v

/-- ZabbixHost.inventory setter (613..618), wrapped by zapi_exception.
The body first merges value into the cached inventory dict IN PLACE
(self._z_host gets its inventory dict mutated by .update(value)) and
only then issues the remote update; a remote failure is contained by
the decorator, but the local merge has already happened, so the merged
inventory stays visible either way.  A missing inventory key raises
KeyError (uncontained). -/
def hostSetInventory (zh : Dict) (remote : Outcome Unit) (v : Dict) :
    Outcome Dict × List String :=
  match dget zh "inventory" with
  | some (.vdict inv0) =>
    let zh1 := dset zh "inventory" (.vdict (dupdate inv0 v))
    match remote with
    | .ok _ => (.ok zh1, [])
    | .exn (.zabbixAPIException d) =>
        (.ok zh1, ["Ошибка обновления инвентарных данных: " ++ d])
    | .exn e => (.exn e, [])
  | _ => (.exn .keyError, [])

/- ------------------------------------------------------------------
C5: lazy hydration accessors (ZabbixProxy.status, ZabbixInterface.main).
------------------------------------------------------------------ -/

/-- A ZabbixProxy instance: its _z_proxy cache and the number of remote
proxy.get calls it has issued. -/
structure ProxyState where
  zproxy : Dict
  calls : Nat

/-- ZabbixProxy._get (127..135), success path: proxy.get scoped to this
proxyid returned at least one record; the first record remoteRec is
merged into the local cache with dict.update. -/
def proxyGetOp (remoteRec : Dict) (s : ProxyState) : ProxyState :=
  ⟨dupdate s.zproxy remoteRec, s.calls + 1⟩

/-- ZabbixProxy.status (147..151): hydrate when the cached field is
falsy, then return the cached field. -/
def proxyStatus (remoteRec : Dict) (s : ProxyState) : ProxyState × Option Value :=
  let s1 := if truthy (dget s.zproxy "status") then s else proxyGetOp remoteRec s
  (s1, dget s1.zproxy "status")

/-- A ZabbixInterface instance: its _z_interface cache and the number
of remote hostinterface.get calls it has issued. -/
structure InterfaceState where
  zinterface : Dict
  calls : Nat

/-- ZabbixInterface._get (352..361), success path: merge the first
returned record. -/
def interfaceGetOp (remoteRec : Dict) (s : InterfaceState) : InterfaceState :=
  ⟨dupdate s.zinterface remoteRec, s.calls + 1⟩

/-- ZabbixInterface.main (404..408): hydrate when the cached field is
falsy, then return int() of the cached field (int of None or of a
non-numeric value raises, modelled as none). -/
def interfaceMain (remoteRec : Dict) (s : InterfaceState) :
    InterfaceState × Option Int :=
  let s1 := if truthy (dget s.zinterface "main") then s else interfaceGetOp remoteRec s
  (s1, (dget s1.zinterface "main").bind pyInt)

/- ------------------------------------------------------------------
C6: limit guard of the bulk problem factories.
------------------------------------------------------------------ -/

/-- A ZabbixProblem entity as built by ZabbixProblemFactory.__make
(245..247): the resolved causing trigger and the raw event record. -/
structure ProblemEnt where
  trigger : Dict
  event : Dict

/-- ZabbixProblemFactory.__make (245..247): resolving the causing
trigger is a further remote round trip through _get_trigger_by_eventid
(213..223), here an oracle from the eventid string. -/
def makeProblem (resolveTrigger : String → Dict) (e : Dict) : ProblemEnt :=
  ⟨resolveTrigger (pyStr (dget e "eventid")), e⟩

/-- ZabbixProblemFactory.get_by_groupids (269..283), success path of the
problem.get call whose records are z_problems: when their number meets
or exceeds limit the function returns None (no generator, nothing is
yielded and no entity is made); otherwise a generator wrapping each
record, here the materialized list. -/
def get_by_groupids (resolveTrigger : String → Dict) (z_problems : List Dict)
    (limit : Nat) : Option (List ProblemEnt) :=
  if z_problems.length ≥ limit then none
  else some (z_problems.map (makeProblem resolveTrigger))

/-- ZabbixProblemFactory.get_by_tag (257..267): the same guard, with an
explicit None check first (__get returns None when the remote call
failed and was contained). -/
def get_by_tag (resolveTrigger : String → Dict) (z_events : Option (List Dict))
    (limit : Nat) : Option (List ProblemEnt) :=
  match z_events with
  | none => none
  | some evs =>
    if evs.length ≥ limit then none
    else some (evs.map (makeProblem resolveTrigger))

/- ------------------------------------------------------------------
C7: trigger dependency purge.
------------------------------------------------------------------ -/

/-- A ZabbixTrigger instance: its _z_trigger cache, the remote
trigger.get calls and the remote deleteDependencies calls issued. -/
structure TriggerState where
  ztrigger : Dict
  reads : Nat
  deleteCalls : Nat

/-- ZabbixTrigger._get (738..747), success path: merge the first
returned trigger record. -/
def triggerGetOp (remoteRec : Dict) (s : TriggerState) : TriggerState :=
  ⟨dupdate s.ztrigger remoteRec, s.reads + 1, s.deleteCalls⟩

/-- ZabbixTrigger.delete_dependencies (797..801), wrapped by
zapi_exception: del _z_trigger[dependencies] raises KeyError when the
key is absent (KeyError is not caught by the decorator); otherwise the
key is removed from the cache BEFORE the remote deleteDependencies
call, so the cached field is purged whether the remote call succeeds or
fails and is contained. -/
def deleteDependenciesOp (s : TriggerState) (_remoteFails : Bool) :
    Outcome TriggerState :=
  if (dget s.ztrigger "dependencies").isSome then
    .ok ⟨ddel s.ztrigger "dependencies", s.reads, s.deleteCalls + 1⟩
  else .exn .keyError

/-- ZabbixTrigger.get_dependencies (785..792): hydrate through
_get(selectDependencies=extend) when the cached field is falsy; then
return None when the dependency list is empty, else the list (each
element is wrapped as ZabbixTrigger(self.host, dep) in the source). -/
def getDependenciesOp (remoteRec : Dict) (s : TriggerState) :
    TriggerState × Option (List Value) :=
  let s1 := if truthy (dget s.ztrigger "dependencies") then s
            else triggerGetOp remoteRec s
  match dget s1.ztrigger "dependencies" with
  | some (Value.vlist l) => if l.isEmpty then (s1, none) else (s1, some l)
  | _ => (s1, none)

/- ------------------------------------------------------------------
C8: main-interface selection (ZabbixHost.get_main_interface / get_ip).
------------------------------------------------------------------ -/

/-- The materialized ZabbixHost._interfaces: the _z_interface dicts of
the ZabbixInterface objects, plus the remote calls they issued. -/
structure IfaceScan where
  interfaces : List Dict
  calls : Nat

/-- Reading .main of the interface object at index i, as
get_main_interface does inside its filter: the ZabbixInterface.main
accessor (404..408) hydrates from the remote (here the per-interface
record oracle) when the cached field is falsy; the read value is passed
through int(). -/
def ifaceMainAt (oracle : Nat → Dict) (s : IfaceScan) (i : Nat) :
    IfaceScan × Option Int :=
  match s.interfaces.get? i with
  | none => (s, none)
  | some d =>
    if truthy (dget d "main") then (s, (dget d "main").bind pyInt)
    else
      let d2 := dupdate d (oracle i)
      (⟨s.interfaces.set i d2, s.calls + 1⟩, (dget d2 "main").bind pyInt)

/-- ZabbixHost.get_main_interface (597..599):
next(filter(lambda i: int(i.main) == 1, self.interfaces), None),
scanning from index i with n entries remaining and threading the state
because each .main read may hydrate. -/
def findMainFrom (oracle : Nat → Dict) : IfaceScan → Nat → Nat → IfaceScan × Option Nat
  | s, _, 0 => (s, none)
  | s, i, n+1 =>
    let p := ifaceMainAt oracle s i
    if p.2 = some 1 then (p.1, some i) else findMainFrom oracle p.1 (i+1) n

/-- ZabbixHost.get_main_interface over the whole collection; the result
index identifies the first interface whose main flag converts to 1, or
none. -/
def getMainInterfaceOp (oracle : Nat → Dict) (s : IfaceScan) :
    IfaceScan × Option Nat :=
  findMainFrom oracle s 0 s.interfaces.length

/-- ZabbixHost.get_ip (601..603): the ip of the main interface, read
through the hydrating ZabbixInterface.ip accessor (393..397); when no
interface is flagged main, .ip on None raises AttributeError. -/
def getIpOp (oracle : Nat → Dict) (s : IfaceScan) :
    IfaceScan × Outcome (Option Value) :=
  match getMainInterfaceOp oracle s with
  | (s1, some i) =>
    match s1.interfaces.get? i with
    | some d =>
      if truthy (dget d "ip") then (s1, .ok (dget d "ip"))
      else
        let d2 := dupdate d (oracle i)
        (⟨s1.interfaces.set i d2, s1.calls + 1⟩, .ok (dget d2 "ip"))
    | none => (s1, .exn .attributeError)
  | (s1, none) => (s1, .exn .attributeError)

/-- Interface records as returned by selectInterfaces=extend, for the
concrete main-interface scenarios: only the middle one is flagged
main. -/
def ifaceRecA : Dict :=
  [("interfaceid", Value.vstr "11"), ("main", Value.vstr "0"),
   ("ip", Value.vstr "10.0.0.1")]

/-- The single main-flagged interface of the concrete scenario. -/
def ifaceRecB : Dict :=
  [("interfaceid", Value.vstr "12"), ("main", Value.vstr "1"),
   ("ip", Value.vstr "10.0.0.2")]

/-- The third, non-main interface of the concrete scenario. -/
def ifaceRecC : Dict :=
  [("interfaceid", Value.vstr "13"), ("main", Value.vstr "0"),
   ("ip", Value.vstr "10.0.0.3")]

/- ------------------------------------------------------------------
C9: VIP classification caching (ZabbixHost.is_vip / _get_VIP).
------------------------------------------------------------------ -/

/-- The _vip slot of a ZabbixHost (None at construction, line 516) and
the number of times _get_VIP has been evaluated. -/
structure VipState where
  vip : Option String
  computes : Nat

/-- Truthiness of the _vip slot: None and the empty classification are
falsy. -/
def truthyStrOpt : Option String → Bool
  | none => false
  | some s => s != ""

/-- One conjunct of _get_VIP (537, 539): the Python expression
(m and int(m) == 1) on a macro value string; int() of a truthy
non-numeric string raises ValueError. -/
def vipCond (s : String) : Outcome Bool :=
  if s != "" then
    match pyParseInt s with
    | none => .exn .valueError
    | some n => .ok (n == 1)
  else .ok false

/-- ZabbixHost._get_VIP (533..541): svip and vipm are the current
values of the IS_SVIP and IS_VIP user macros of the host (read through
get_macro at call time, so they reflect later macro changes). -/
def getVipOf (svip vipm : String) : Outcome String :=
  match vipCond svip with
  | .exn e => .exn e
  | .ok true => .ok "SVIP"
  | .ok false =>
    match vipCond vipm with
    | .exn e => .exn e
    | .ok true => .ok "VIP"
    | .ok false => .ok ""

/-- ZabbixHost.is_vip (497..501): recompute through _get_VIP whenever
the cached _vip is falsy (None initially, or the empty
classification), then return it. -/
def isVipAccess (svip vipm : String) (s : VipState) :
    Outcome (VipState × String) :=
  if truthyStrOpt s.vip then .ok (s, s.vip.getD "")
  else
    match getVipOf svip vipm with
    | .ok r => .ok (⟨some r, s.computes + 1⟩, r)
    | .exn e => .exn e

/- ------------------------------------------------------------------
C3: update_or_create_macro and its surroundings.
------------------------------------------------------------------ -/

/-- The world a single ZabbixHost and its user macros live in: the
server-side usermacro records of this host (remote, with the next id
the server will assign), the host cache _z_host, the _z_macro dicts of
the materialized ZabbixHost._macros list, and counters of the remote
calls issued (reads = any get, updates = usermacro.update,
creates = usermacro.create). -/
structure MacroSys where
  remote : List Dict
  nextId : Nat
  zhost : Dict
  zmacros : List Dict
  reads : Nat
  updates : Nat
  creates : Nat

/-- The hostid of the host as a wire string. -/
def hostidStr (s : MacroSys) : String := pyStr (dget s.zhost "hostid")

/-- ZabbixHost._get(output=macros, selectMacros=extend) (446..455
called from 563), success path: host.get returns the host record whose
macros field is the current server-side macro list; it is merged into
_z_host. -/
def hostGetMacrosOp (s : MacroSys) : MacroSys :=
  { s with zhost := dset s.zhost "macros" (Value.vlist (s.remote.map Value.vdict)),
           reads := s.reads + 1 }

/-- The dict elements of a cached list field (the records the
ZabbixMacro objects are constructed over). -/
def vdicts : Option Value → List Dict
  | some (.vlist l) => l.foldr (fun v acc => match v with | .vdict d => d :: acc | _ => acc) []
  | _ => []

/-- ZabbixHost.macros (559..565): when _macros is empty, hydrate
_z_host if its macros field is falsy, then materialize one ZabbixMacro
per record.  A created macro is NEVER added to a non-empty _macros
list; that is the source of the duplicate-create behaviour. -/
def hostMacrosOp (s : MacroSys) : MacroSys :=
  if !s.zmacros.isEmpty then s
  else
    let s1 := if truthy (dget s.zhost "macros") then s else hostGetMacrosOp s
    { s1 with zmacros := vdicts (dget s1.zhost "macros") }

/-- The server record with the given hostmacroid (the server side of
usermacro.get(hostmacroids=[id])). -/
def remoteById (s : MacroSys) (mid : String) : Option Dict :=
  s.remote.find? (fun r => pyStr (dget r "hostmacroid") == mid)

/-- A field read on the ZabbixMacro at index i of the materialized
list: hydrate through ZabbixMacro._get (222..230) when the cached field
is falsy.  When the server no longer has the record, the real _get
raises (see the C1 analysis of the empty-result IndexError); that
branch only counts the read here and is not exercised by the
theorems. -/
def macroFieldAt (s : MacroSys) (i : Nat) (key : String) :
    MacroSys × Option Value :=
  match s.zmacros.get? i with
  | none => (s, none)
  | some m =>
    if truthy (dget m key) then (s, dget m key)
    else
      match remoteById s (pyStr (dget m "hostmacroid")) with
      | some r =>
        let m2 := dupdate m r
        ({ s with zmacros := s.zmacros.set i m2, reads := s.reads + 1 }, dget m2 key)
      | none => ({ s with reads := s.reads + 1 }, dget m key)

/-- ZabbixHost.get_macro (567..569):
next(filter(lambda m: m.name == macro, self.macros), None), visiting
the materialized ZabbixMacro objects in position order; reading m.name
may hydrate, so the state is threaded.  A None name never equals the
target string. -/
def getMacroScan (target : String) : MacroSys → List Nat → MacroSys × Option Nat
  | s, [] => (s, none)
  | s, i :: rest =>
    let p := macroFieldAt s i "macro"
    let matched := match p.2 with
      | some (Value.vstr nm) => nm == target
      | _ => false
    if matched then (p.1, some i) else getMacroScan target p.1 rest

/-- ZabbixHost.get_macro over the whole materialized collection (which
self.macros builds first). -/
def getMacroOp (s : MacroSys) (target : String) : MacroSys × Option Nat :=
  let s1 := hostMacrosOp s
  getMacroScan target s1 (List.range s1.zmacros.length)

/-- ZabbixMacro.value setter (268..271) on the macro at index i:
_update (232..239) issues usermacro.update scoped to the hostmacroid
(the server updates the matching record), and the local cache is then
assigned (unconditionally, see C2).  The update call is counted. -/
def setMacroValueAt (s : MacroSys) (i : Nat) (v : String) : MacroSys :=
  match s.zmacros.get? i with
  | none => s
  | some m =>
    let mid := pyStr (dget m "hostmacroid")
    { s with
      remote := s.remote.map (fun r =>
        if pyStr (dget r "hostmacroid") == mid then dset r "value" (Value.vstr v) else r),
      updates := s.updates + 1,
      zmacros := s.zmacros.set i (dset m "value" (Value.vstr v)) }

/-- ZabbixMacro.create (273..283): usermacro.create adds a server
record with the next id and returns a ZabbixMacro holding only that id.
update_or_create_macro binds the result but does not add it to the
materialized _macros list of the host. -/
def createMacroOp (s : MacroSys) (name v : String) : MacroSys :=
  { s with
    remote := s.remote ++
      [[("hostmacroid", Value.vstr (toString s.nextId)),
        ("hostid", Value.vstr (hostidStr s)),
        ("macro", Value.vstr name),
        ("value", Value.vstr v)]],
    nextId := s.nextId + 1,
    creates := s.creates + 1 }

/-- ZabbixHost.update_or_create_macro (620..636): look the macro up by
name in the materialized collection; when found, write-through update
its value only when str(current) differs from str(new); when not
found, create a new server-side macro. -/
def updateOrCreateMacroOp (s : MacroSys) (name v : String) : MacroSys :=
  let p := getMacroOp s name
  match p.2 with
  | some i =>
    let q := macroFieldAt p.1 i "value"
    if pyStr q.2 != v then setMacroValueAt q.1 i v else q.1
  | none => createMacroOp p.1 name v

/-- A usermacro record as returned by selectMacros=extend. -/
def macroRec (mid hid n0 v0 : String) : Dict :=
  [("hostmacroid", Value.vstr mid), ("hostid", Value.vstr hid),
   ("macro", Value.vstr n0), ("value", Value.vstr v0)]

/-- A host whose macro collection is materialized and holds exactly one
macro record (name n0, value v0): the state after a first
self.macros access. -/
def oneMacroSys (mid hid n0 v0 : String) : MacroSys :=
  ⟨[macroRec mid hid n0 v0], 2,
   [("hostid", Value.vstr hid),
    ("macros", Value.vlist [Value.vdict (macroRec mid hid n0 v0)])],
   [macroRec mid hid n0 v0], 0, 0, 0⟩

/- ------------------------------------------------------------------
C10: the ZabbixFactory module cannot be imported.
------------------------------------------------------------------ -/

/-- zapi_exception (src/Zabbix.py line 11) declares exactly one
parameter, log_message. -/
def zapiExceptionParamCount : Nat := 1

/-- Every zapi_exception(...) decorator application in
src/ZabbixFactory.py with the number of positional arguments passed,
in source order of module evaluation (class bodies run at import). -/
def factoryDecoratorCalls : List (String × Nat) :=
  [("ZabbixProxyFactory.__get", 1),
   ("ZabbixGroupFactory.__get", 2),
   ("ZabbixGroupFactory.create", 1),
   ("ZabbixMacroFactory.__get", 1),
   ("ZabbixTemplateFactory.__get", 1),
   ("ZabbixInterfaceFactory.__get", 1),
   ("ZabbixHostFactory.__get", 1),
   ("ZabbixHostFactory.create", 1),
   ("ZabbixTriggerFactory.__get", 1),
   ("ZabbixEventFactory.__get", 1),
   ("ZabbixProblemFactory.__get", 1)]

/-- Calling the decorator factory zapi_exception with nargs positional
arguments: a Python function of one parameter raises TypeError when
applied to any other number of arguments. -/
def applyZapiExceptionFactory (nargs : Nat) : Outcome Unit :=
  if nargs = zapiExceptionParamCount then .ok () else .exn .typeError

/-- Importing src/ZabbixFactory.py: each class body is evaluated in
order and each zapi_exception(...) application runs then; the first
raised exception aborts the import. -/
def importZabbixFactoryModule : Outcome Unit :=
  factoryDecoratorCalls.foldl
    (fun acc p =>
      match acc with
      | .ok _ => applyZapiExceptionFactory p.2
      | .exn e => .exn e)
    (.ok ())

/- ==================================================================
Theorems.
================================================================== -/

/- Dict lemmas shared by the claim proofs. -/

theorem dget_dset_self (d : Dict) (k : String) (v : Value) :
    dget (dset d k v) k = some v := by
  induction d with
  | nil => simp [dget, dset]
  | cons p t ih =>
    obtain ⟨k1, v1⟩ := p
    by_cases h : k1 = k
    · simp [dget, dset, h]
    · simp [dget, dset, h, ih]

theorem dget_dset_ne (d : Dict) (k k2 : String) (v : Value) (h : k2 ≠ k) :
    dget (dset d k v) k2 = dget d k2 := by
  induction d with
  | nil => simp [dget, dset, Ne.symm h]
  | cons p t ih =>
    obtain ⟨k1, v1⟩ := p
    by_cases h1 : k1 = k
    · subst h1
      simp [dget, dset, Ne.symm h]
    · simp [dget, dset, h1, ih]

theorem dget_dset_isSome (d : Dict) (k k1 : String) (v : Value)
    (h : (dget d k).isSome) : (dget (dset d k1 v) k).isSome := by
  by_cases hk : k = k1
  · subst hk
    simp [dget_dset_self]
  · rw [dget_dset_ne d k1 k v hk]
    exact h

theorem dget_dupdate_isSome (d r : Dict) (k : String)
    (h : (dget d k).isSome) : (dget (dupdate d r) k).isSome := by
  induction r generalizing d with
  | nil => simpa [dupdate] using h
  | cons p t ih =>
    obtain ⟨k1, v1⟩ := p
    have h1 : (dget (dset d k1 v1) k).isSome := dget_dset_isSome d k k1 v1 h
    simpa [dupdate] using ih (dset d k1 v1) h1

theorem dget_ddel_self (d : Dict) (k : String) : dget (ddel d k) k = none := by
  induction d with
  | nil => simp [dget, ddel]
  | cons p t ih =>
    obtain ⟨k1, v1⟩ := p
    by_cases h : k1 = k
    · simp [ddel, h, ih]
    · simp [dget, ddel, h, ih]

/- ------------------------------------------------------------------
Claim C1.
------------------------------------------------------------------ -/

/-- Claim C1 (the code is at fault): the claim says that a wrapped
operation hitting a remote ZabbixAPIException OR an empty result
(IndexError) logs the failure and returns None, with no exception
propagating.  The code satisfies this for a ZabbixAPIException (second
conjunct), but for an IndexError the handler itself evaluates e.data on
an exception object that has no data attribute, so the wrapper raises
AttributeError instead of logging and returning None (first conjunct):
the containment the decorator is plainly written to provide is broken
on exactly the empty-result branch it names. -/
theorem claim_C1_indexerror_breaks_containment :
    zapi_exception "ctx" (Outcome.exn PyExn.indexError : Outcome Unit)
      = (Outcome.exn PyExn.attributeError, [])
    ∧ zapi_exception "ctx" (Outcome.exn (PyExn.zabbixAPIException "detail") : Outcome Unit)
      = (Outcome.ok none, ["ctx: detail"]) :=
  ⟨rfl, rfl⟩

/- ------------------------------------------------------------------
Claim C2.
------------------------------------------------------------------ -/

/-- Claim C2 counterexample: the claim says every settable attribute
leaves the locally observable field unchanged when the remote update
fails.  For ZabbixMacro.value the remote failure is contained inside
the decorated _update, so the setter still assigns the local cache: a
macro whose cached value is a, set to b while the remote update raises
ZabbixAPIException, ends with cached value b, not a. -/
theorem claim_C2_counterexample :
    (macroSetValue [("hostmacroid", Value.vstr "5"), ("value", Value.vstr "a")]
        (Outcome.exn (PyExn.zabbixAPIException "boom")) (Value.vstr "b")).1
      = Outcome.ok [("hostmacroid", Value.vstr "5"), ("value", Value.vstr "b")]
    ∧ pyStr (dget [("hostmacroid", Value.vstr "5"), ("value", Value.vstr "a")] "value") = "a"
    ∧ pyStr (dget [("hostmacroid", Value.vstr "5"), ("value", Value.vstr "b")] "value") = "b" :=
  ⟨rfl, rfl, rfl⟩

/-- Claim C2 amended: on a failed remote update, only the ZabbixHost
host, name, status and proxy_hostid setters leave the local cache
unchanged (their failure is caught before the assignment).  The
ZabbixMacro name and value setters and the ZabbixInterface dns, ip and
useip setters assign the attempted value anyway (the failure is
contained inside the decorated _update), and the ZabbixHost inventory
setter merges the attempted fields into the cached inventory BEFORE the
remote call, so the merged inventory stays visible on failure too. -/
theorem claim_C2_amended (zh zm zi inv1 : Dict) (d : String) (v : Value)
    (inv0 : Dict) (hinv : dget zh "inventory" = some (Value.vdict inv0)) :
    (hostSetHost zh (Outcome.exn (PyExn.zabbixAPIException d)) v).1 = Outcome.ok zh
    ∧ (hostSetName zh (Outcome.exn (PyExn.zabbixAPIException d)) v).1 = Outcome.ok zh
    ∧ (hostSetStatus zh (Outcome.exn (PyExn.zabbixAPIException d)) v).1 = Outcome.ok zh
    ∧ (hostSetProxyHostid zh (Outcome.exn (PyExn.zabbixAPIException d)) v).1 = Outcome.ok zh
    ∧ (macroSetValue zm (Outcome.exn (PyExn.zabbixAPIException d)) v).1
        = Outcome.ok (dset zm "value" v)
    ∧ (macroSetName zm (Outcome.exn (PyExn.zabbixAPIException d)) v).1
        = Outcome.ok (dset zm "macro" v)
    ∧ (interfaceSetDns zi (Outcome.exn (PyExn.zabbixAPIException d)) v).1
        = Outcome.ok (dset zi "dns" v)
    ∧ (interfaceSetIp zi (Outcome.exn (PyExn.zabbixAPIException d)) v).1
        = Outcome.ok (dset zi "ip" v)
    ∧ (interfaceSetUseip zi (Outcome.exn (PyExn.zabbixAPIException d)) v).1
        = Outcome.ok (dset zi "useip" v)
    ∧ (hostSetInventory zh (Outcome.exn (PyExn.zabbixAPIException d)) inv1).1
        = Outcome.ok (dset zh "inventory" (Value.vdict (dupdate inv0 inv1))) := by
  refine ⟨rfl, rfl, rfl, rfl, rfl, rfl, rfl, rfl, rfl, ?_⟩
  simp [hostSetInventory, hinv]

/-- Claim C2 amended, witness at a concrete host cache with a cached
inventory. -/
theorem claim_C2_amended_witness :
    dget [("hostid", Value.vstr "1"), ("inventory", Value.vdict [("os", Value.vstr "ios")])]
        "inventory" = some (Value.vdict [("os", Value.vstr "ios")])
    ∧ (hostSetStatus [("hostid", Value.vstr "1"),
          ("inventory", Value.vdict [("os", Value.vstr "ios")])]
        (Outcome.exn (PyExn.zabbixAPIException "boom")) (Value.vint 1)).1
        = Outcome.ok [("hostid", Value.vstr "1"),
            ("inventory", Value.vdict [("os", Value.vstr "ios")])]
    ∧ (hostSetInventory [("hostid", Value.vstr "1"),
          ("inventory", Value.vdict [("os", Value.vstr "ios")])]
        (Outcome.exn (PyExn.zabbixAPIException "boom")) [("site", Value.vstr "N1")]).1
        = Outcome.ok (dset [("hostid", Value.vstr "1"),
            ("inventory", Value.vdict [("os", Value.vstr "ios")])]
            "inventory"
            (Value.vdict (dupdate [("os", Value.vstr "ios")] [("site", Value.vstr "N1")]))) := by
  have h := claim_C2_amended
    [("hostid", Value.vstr "1"), ("inventory", Value.vdict [("os", Value.vstr "ios")])]
    [] [] [("site", Value.vstr "N1")] "boom" (Value.vint 1)
    [("os", Value.vstr "ios")] rfl
  exact ⟨rfl, h.2.2.1, h.2.2.2.2.2.2.2.2.2⟩

/- ------------------------------------------------------------------
Claim C4.
------------------------------------------------------------------ -/

/-- Claim C4: constructing any entity subtype from a record whose
required identifier is missing or falsy (empty) raises KeyError
immediately, and the construction failure is never contained by
zapi_exception (KeyError is not among the exceptions the decorator
catches, so it propagates even out of decorated factory methods). -/
theorem claim_C4_construction_fails (k : EntityKind) (record : Dict)
    (h : truthy (dget record (requiredIdKey k)) = false) :
    entityInit k record = Outcome.exn PyExn.keyError
    ∧ ∀ msg, zapi_exception msg (entityInit k record)
        = (Outcome.exn PyExn.keyError, []) := by
  constructor
  · simp [entityInit, h]
  · intro msg
    simp [entityInit, h, zapi_exception]

/-- Claim C4 witness: a host record carrying an empty hostid. -/
theorem claim_C4_construction_fails_witness :
    truthy (dget [("hostid", Value.vstr "")] (requiredIdKey EntityKind.hostK)) = false
    ∧ entityInit EntityKind.hostK [("hostid", Value.vstr "")]
        = Outcome.exn PyExn.keyError
    ∧ zapi_exception "Ошибка получения Zabbix узла"
        (entityInit EntityKind.hostK [("hostid", Value.vstr "")])
        = (Outcome.exn PyExn.keyError, []) := by
  have h := claim_C4_construction_fails EntityKind.hostK
    [("hostid", Value.vstr "")] rfl
  exact ⟨rfl, h.1, h.2 "Ошибка получения Zabbix узла"⟩

/- ------------------------------------------------------------------
Claim C5.
------------------------------------------------------------------ -/

/-- Claim C5 counterexample: the claim says a field already present in
the cache is served with zero remote calls.  The accessors test Python
truthiness, not presence: a proxy whose cache holds the present but
empty status field still issues one remote call on read. -/
theorem claim_C5_counterexample :
    (dget [("proxyid", Value.vstr "1"), ("status", Value.vstr "")] "status").isSome = true
    ∧ (proxyStatus [("proxyid", Value.vstr "1"), ("status", Value.vstr "5")]
        ⟨[("proxyid", Value.vstr "1"), ("status", Value.vstr "")], 0⟩).1.calls = 1 :=
  ⟨rfl, rfl⟩

/-- Claim C5 amended: if the cached field is present AND truthy, the
accessor returns it with zero remote calls; if it is absent or falsy,
the accessor issues exactly one remote get scoped to the identifier,
merges the returned record into the cache with dict.update — no cached
key is removed, but overlapping cached keys are overwritten with the
remote values — and returns the now-cached field.  Stated for
ZabbixProxy.status and ZabbixInterface.main. -/
theorem claim_C5_amended (remoteRec : Dict) (s : ProxyState) (s2 : InterfaceState) :
    (truthy (dget s.zproxy "status") = true →
      proxyStatus remoteRec s = (s, dget s.zproxy "status"))
    ∧ (truthy (dget s.zproxy "status") = false →
      (proxyStatus remoteRec s).1.calls = s.calls + 1
      ∧ (proxyStatus remoteRec s).1.zproxy = dupdate s.zproxy remoteRec
      ∧ (∀ k2, (dget s.zproxy k2).isSome →
          (dget (proxyStatus remoteRec s).1.zproxy k2).isSome)
      ∧ (proxyStatus remoteRec s).2 = dget (dupdate s.zproxy remoteRec) "status")
    ∧ (truthy (dget s2.zinterface "main") = true →
      interfaceMain remoteRec s2 = (s2, (dget s2.zinterface "main").bind pyInt))
    ∧ (truthy (dget s2.zinterface "main") = false →
      (interfaceMain remoteRec s2).1.calls = s2.calls + 1
      ∧ (interfaceMain remoteRec s2).1.zinterface = dupdate s2.zinterface remoteRec
      ∧ (∀ k2, (dget s2.zinterface k2).isSome →
          (dget (interfaceMain remoteRec s2).1.zinterface k2).isSome)) := by
  refine ⟨?_, ?_, ?_, ?_⟩
  · intro h
    simp [proxyStatus, h]
  · intro h
    refine ⟨by simp [proxyStatus, proxyGetOp, h], by simp [proxyStatus, proxyGetOp, h],
      ?_, by simp [proxyStatus, proxyGetOp, h]⟩
    intro k2 hk
    simp only [proxyStatus, proxyGetOp, h]
    simpa using dget_dupdate_isSome s.zproxy remoteRec k2 hk
  · intro h
    simp [interfaceMain, h]
  · intro h
    refine ⟨by simp [interfaceMain, interfaceGetOp, h],
      by simp [interfaceMain, interfaceGetOp, h], ?_⟩
    intro k2 hk
    simp only [interfaceMain, interfaceGetOp, h]
    simpa using dget_dupdate_isSome s2.zinterface remoteRec k2 hk

/-- Claim C5 amended, witness: a cached truthy status is served with
zero calls; an absent status costs one call, the merged cache keeps the
previously cached proxyid, and the now-cached status is returned. -/
theorem claim_C5_amended_witness :
    (truthy (dget [("proxyid", Value.vstr "1"), ("status", Value.vstr "6")] "status") = true
      ∧ proxyStatus [("status", Value.vstr "5")]
          ⟨[("proxyid", Value.vstr "1"), ("status", Value.vstr "6")], 0⟩
        = (⟨[("proxyid", Value.vstr "1"), ("status", Value.vstr "6")], 0⟩,
           dget [("proxyid", Value.vstr "1"), ("status", Value.vstr "6")] "status"))
    ∧ (truthy (dget [("proxyid", Value.vstr "1")] "status") = false
      ∧ (proxyStatus [("proxyid", Value.vstr "1"), ("status", Value.vstr "5")]
          ⟨[("proxyid", Value.vstr "1")], 0⟩).1.calls = 0 + 1
      ∧ (dget [("proxyid", Value.vstr "1")] "proxyid").isSome
      ∧ (dget (proxyStatus [("proxyid", Value.vstr "1"), ("status", Value.vstr "5")]
          ⟨[("proxyid", Value.vstr "1")], 0⟩).1.zproxy "proxyid").isSome) := by
  have h1 := (claim_C5_amended [("status", Value.vstr "5")]
    ⟨[("proxyid", Value.vstr "1"), ("status", Value.vstr "6")], 0⟩
    ⟨[], 0⟩).1 rfl
  have h2 := (claim_C5_amended [("proxyid", Value.vstr "1"), ("status", Value.vstr "5")]
    ⟨[("proxyid", Value.vstr "1")], 0⟩ ⟨[], 0⟩).2.1 rfl
  exact ⟨⟨rfl, h1⟩, ⟨rfl, h2.1, by simp [dget], h2.2.2.1 "proxyid" (by simp [dget])⟩⟩

/- ------------------------------------------------------------------
Claim C6.
------------------------------------------------------------------ -/

/-- Claim C6: with limit N, a bulk problem retrieval whose remote call
returned N or more raw records yields zero entities (the factory
returns an absent result and never constructs an entity), and one that
returned N-1 records yields exactly N-1 entities.  Stated for
get_by_groupids and get_by_tag. -/
theorem claim_C6_limit_guard (resolveTrigger : String → Dict)
    (recs : List Dict) (limit : Nat) :
    (recs.length ≥ limit →
      get_by_groupids resolveTrigger recs limit = none
      ∧ get_by_tag resolveTrigger (some recs) limit = none)
    ∧ (recs.length + 1 = limit →
      get_by_groupids resolveTrigger recs limit
        = some (recs.map (makeProblem resolveTrigger))
      ∧ (recs.map (makeProblem resolveTrigger)).length = recs.length
      ∧ get_by_tag resolveTrigger (some recs) limit
        = some (recs.map (makeProblem resolveTrigger))) := by
  constructor
  · intro h
    constructor
    · simp [get_by_groupids, h]
    · simp [get_by_tag, h]
  · intro h
    have hlt : ¬ recs.length ≥ limit := by omega
    refine ⟨by simp [get_by_groupids, hlt], by simp, by simp [get_by_tag, hlt]⟩

/-- Claim C6 witness: limit 3 with 3 records yields nothing; limit 3
with 2 records yields 2 entities. -/
theorem claim_C6_limit_guard_witness :
    (([ [("eventid", Value.vstr "1")], [("eventid", Value.vstr "2")],
        [("eventid", Value.vstr "3")] ] : List Dict).length ≥ 3
      ∧ get_by_groupids (fun _ => [])
          [ [("eventid", Value.vstr "1")], [("eventid", Value.vstr "2")],
            [("eventid", Value.vstr "3")] ] 3 = none)
    ∧ (([ [("eventid", Value.vstr "1")], [("eventid", Value.vstr "2")] ] : List Dict).length + 1 = 3
      ∧ (get_by_tag (fun _ => [])
          (some [ [("eventid", Value.vstr "1")], [("eventid", Value.vstr "2")] ]) 3
        = some ([ [("eventid", Value.vstr "1")], [("eventid", Value.vstr "2")] ].map
            (makeProblem (fun _ => []))))) := by
  have h1 := (claim_C6_limit_guard (fun _ => [])
    [ [("eventid", Value.vstr "1")], [("eventid", Value.vstr "2")],
      [("eventid", Value.vstr "3")] ] 3).1 (by simp)
  have h2 := (claim_C6_limit_guard (fun _ => [])
    [ [("eventid", Value.vstr "1")], [("eventid", Value.vstr "2")] ] 3).2 (by simp)
  exact ⟨⟨by simp, h1.1⟩, ⟨by simp, h2.2.2⟩⟩

/- ------------------------------------------------------------------
Claim C7.
------------------------------------------------------------------ -/

/-- Claim C7: after delete_dependencies completes (on a trigger whose
dependencies field was cached; the remote call may succeed or fail and
be contained), the cached dependencies field is gone, so a subsequent
get_dependencies performs a fresh remote get instead of serving the
stale cached list. -/
theorem claim_C7_dependency_purge (s : TriggerState) (fails : Bool)
    (s1 : TriggerState) (h : deleteDependenciesOp s fails = Outcome.ok s1) :
    dget s1.ztrigger "dependencies" = none
    ∧ ∀ remoteRec, (getDependenciesOp remoteRec s1).1.reads = s1.reads + 1 := by
  have hsome : (dget s.ztrigger "dependencies").isSome := by
    by_contra hc
    simp [deleteDependenciesOp, hc] at h
  have hs1 : s1 = ⟨ddel s.ztrigger "dependencies", s.reads, s.deleteCalls + 1⟩ := by
    simp [deleteDependenciesOp, hsome] at h
    exact h.symm
  subst hs1
  have hnone : dget (ddel s.ztrigger "dependencies") "dependencies" = none :=
    dget_ddel_self s.ztrigger "dependencies"
  refine ⟨hnone, ?_⟩
  intro remoteRec
  simp only [getDependenciesOp, hnone, truthy, Bool.false_eq_true, if_false]
  split <;>
    simp [triggerGetOp,
      apply_ite (fun p : TriggerState × Option (List Value) => p.1.reads)]

/-- Claim C7 witness: a trigger with a cached one-element dependency
list. -/
theorem claim_C7_dependency_purge_witness :
    deleteDependenciesOp
        ⟨[("triggerid", Value.vstr "7"),
          ("dependencies", Value.vlist [Value.vdict [("triggerid", Value.vstr "8")]])], 0, 0⟩
        false
      = Outcome.ok ⟨[("triggerid", Value.vstr "7")], 0, 1⟩
    ∧ dget ([("triggerid", Value.vstr "7")] : Dict) "dependencies" = none
    ∧ (getDependenciesOp [("dependencies", Value.vlist [])]
        ⟨[("triggerid", Value.vstr "7")], 0, 1⟩).1.reads = 0 + 1 := by
  have h := claim_C7_dependency_purge
    ⟨[("triggerid", Value.vstr "7"),
      ("dependencies", Value.vlist [Value.vdict [("triggerid", Value.vstr "8")]])], 0, 0⟩
    false ⟨[("triggerid", Value.vstr "7")], 0, 1⟩ rfl
  exact ⟨rfl, h.1, h.2 [("dependencies", Value.vlist [])]⟩

/- ------------------------------------------------------------------
Claim C8.
------------------------------------------------------------------ -/

/-- Helper for C8: when exactly the interface at index i0 has a main
flag converting to 1 and every main flag is cached truthy, the
get_main_interface scan started at any index at most i0 finds i0
without touching the remote. -/
theorem findMainFrom_finds (oracle : Nat → Dict) (l : List Dict) (c : Nat)
    (i0 : Nat)
    (hmain : ∀ (j : Nat) (d : Dict), l[j]? = some d →
      (((dget d "main").bind pyInt = some 1) ↔ j = i0))
    (htr : ∀ (j : Nat) (d : Dict), l[j]? = some d → truthy (dget d "main") = true)
    (hi0 : i0 < l.length) :
    ∀ n i, i + n = l.length → i ≤ i0 →
      findMainFrom oracle ⟨l, c⟩ i n = (⟨l, c⟩, some i0) := by
  intro n
  induction n with
  | zero =>
    intro i hi hle
    omega
  | succ n ih =>
    intro i hi hle
    have hi_lt : i < l.length := by omega
    obtain ⟨d, hd⟩ : ∃ d, l[i]? = some d := ⟨_, List.getElem?_eq_getElem hi_lt⟩
    have htri := htr i d hd
    by_cases hii : i = i0
    · subst hii
      have hone : (dget d "main").bind pyInt = some 1 := (hmain i d hd).mpr rfl
      simp [findMainFrom, ifaceMainAt, hd, htri, hone]
    · have hnot : ¬ (dget d "main").bind pyInt = some 1 := by
        intro hcontra
        exact hii ((hmain i d hd).mp hcontra)
      have hrec := ih (i + 1) (by omega) (by omega)
      simpa [findMainFrom, ifaceMainAt, hd, htri, hnot] using hrec

/-- Claim C8: on a host whose materialized interface collection has
exactly one interface whose main flag converts to 1 (at any position
i0, so in any order), with all main flags cached and the main
interface's ip cached, get_main_interface selects that interface and
get_ip returns its ip, with no further remote call. -/
theorem claim_C8_main_interface (oracle : Nat → Dict) (l : List Dict)
    (c i0 : Nat) (d0 : Dict) (h0 : l[i0]? = some d0)
    (hmain : ∀ (j : Nat) (d : Dict), l[j]? = some d →
      (((dget d "main").bind pyInt = some 1) ↔ j = i0))
    (htr : ∀ (j : Nat) (d : Dict), l[j]? = some d → truthy (dget d "main") = true)
    (hip : truthy (dget d0 "ip") = true) :
    getMainInterfaceOp oracle ⟨l, c⟩ = (⟨l, c⟩, some i0)
    ∧ getIpOp oracle ⟨l, c⟩ = (⟨l, c⟩, Outcome.ok (dget d0 "ip")) := by
  have hi0 : i0 < l.length := by
    by_contra hc
    rw [List.getElem?_eq_none (by omega)] at h0
    exact Option.noConfusion h0
  have hscan := findMainFrom_finds oracle l c i0 hmain htr hi0 l.length 0
    (by omega) (by omega)
  have hmainop : getMainInterfaceOp oracle ⟨l, c⟩ = (⟨l, c⟩, some i0) := by
    simpa [getMainInterfaceOp] using hscan
  refine ⟨hmainop, ?_⟩
  simp [getIpOp, hmainop, h0, hip]

/-- Claim C8 witness: three interfaces with the main one in the middle;
get_ip returns its ip with zero remote calls. -/
theorem claim_C8_main_interface_witness :
    truthy (dget ifaceRecB "ip") = true
    ∧ getIpOp (fun _ => []) ⟨[ifaceRecA, ifaceRecB, ifaceRecC], 0⟩
        = (⟨[ifaceRecA, ifaceRecB, ifaceRecC], 0⟩,
           Outcome.ok (some (Value.vstr "10.0.0.2"))) := by
  have hmain : ∀ (j : Nat) (d : Dict), ([ifaceRecA, ifaceRecB, ifaceRecC] : List Dict)[j]? = some d →
      (((dget d "main").bind pyInt = some 1) ↔ j = 1) := by
    intro j d h
    match j with
    | 0 =>
      simp at h
      subst h
      decide
    | 1 =>
      simp at h
      subst h
      decide
    | 2 =>
      simp at h
      subst h
      decide
    | n+3 =>
      simp at h
  have htr : ∀ (j : Nat) (d : Dict), ([ifaceRecA, ifaceRecB, ifaceRecC] : List Dict)[j]? = some d →
      truthy (dget d "main") = true := by
    intro j d h
    match j with
    | 0 =>
      simp at h
      subst h
      decide
    | 1 =>
      simp at h
      subst h
      decide
    | 2 =>
      simp at h
      subst h
      decide
    | n+3 =>
      simp at h
  have h := claim_C8_main_interface (fun _ => [])
    [ifaceRecA, ifaceRecB, ifaceRecC] 0 1 ifaceRecB rfl hmain htr (by decide)
  exact ⟨by decide, h.2⟩

/- ------------------------------------------------------------------
Claim C9.
------------------------------------------------------------------ -/

/-- Claim C9 counterexample: the claim says the VIP classification is
computed at most once per host and later accesses return the cached
value even if the macros change.  The guard tests truthiness of _vip,
and the empty classification is falsy: a host classified as neither
SVIP nor VIP is recomputed on every access, and a later macro change
(IS_VIP from 0 to 1) changes the returned classification from empty to
VIP on the second access. -/
theorem claim_C9_counterexample :
    isVipAccess "0" "0" ⟨none, 0⟩ = Outcome.ok (⟨some "", 1⟩, "")
    ∧ isVipAccess "0" "1" ⟨some "", 1⟩ = Outcome.ok (⟨some "VIP", 2⟩, "VIP")
    ∧ ("VIP" : String) ≠ "" :=
  ⟨rfl, rfl, by decide⟩

/-- Claim C9 amended: only a non-empty classification (SVIP or VIP) is
cached for the lifetime of the host: once _vip is truthy, every access
returns it unchanged with no recomputation, whatever the macros now
say.  The empty classification is falsy and is recomputed on every
access (and can therefore change when the underlying macros change). -/
theorem claim_C9_amended (svip vipm : String) (s : VipState) :
    (truthyStrOpt s.vip = true →
      isVipAccess svip vipm s = Outcome.ok (s, s.vip.getD ""))
    ∧ (∀ r, getVipOf svip vipm = Outcome.ok r → r ≠ "" →
      isVipAccess svip vipm ⟨none, s.computes⟩
          = Outcome.ok (⟨some r, s.computes + 1⟩, r)
      ∧ ∀ svip2 vipm2, isVipAccess svip2 vipm2 ⟨some r, s.computes + 1⟩
          = Outcome.ok (⟨some r, s.computes + 1⟩, r))
    ∧ (getVipOf svip vipm = Outcome.ok "" →
      isVipAccess svip vipm ⟨some "", s.computes⟩
        = Outcome.ok (⟨some "", s.computes + 1⟩, "")) := by
  refine ⟨?_, ?_, ?_⟩
  · intro h
    simp [isVipAccess, h]
  · intro r hr hne
    constructor
    · simp [isVipAccess, truthyStrOpt, hr]
    · intro svip2 vipm2
      simp [isVipAccess, truthyStrOpt, hne]
  · intro h
    simp [isVipAccess, truthyStrOpt, h]

/-- Claim C9 amended, witness: a host whose SVIP macro is 1 computes
SVIP once and serves it from the cache on a second access even after
both macros change to 0; a host with both macros 0 recomputes. -/
theorem claim_C9_amended_witness :
    getVipOf "1" "0" = Outcome.ok "SVIP"
    ∧ ("SVIP" : String) ≠ ""
    ∧ isVipAccess "1" "0" ⟨none, 0⟩ = Outcome.ok (⟨some "SVIP", 1⟩, "SVIP")
    ∧ isVipAccess "0" "0" ⟨some "SVIP", 1⟩ = Outcome.ok (⟨some "SVIP", 1⟩, "SVIP")
    ∧ getVipOf "0" "0" = Outcome.ok ""
    ∧ isVipAccess "0" "0" ⟨some "", 1⟩ = Outcome.ok (⟨some "", 2⟩, "") := by
  have h := claim_C9_amended "1" "0" (⟨none, 0⟩ : VipState)
  have h2 := (h.2.1 "SVIP" rfl (by decide))
  have h3 := claim_C9_amended "0" "0" (⟨none, 1⟩ : VipState)
  exact ⟨rfl, by decide, h2.1, h2.2 "0" "0", rfl, h3.2.2 rfl⟩

/- ------------------------------------------------------------------
Claim C3.
------------------------------------------------------------------ -/

/-- Claim C3 counterexample: the claim says two consecutive
update_or_create_macro calls with the same (name, value) issue at most
one remote write in total.  On a host whose materialized macro
collection holds one other macro, upserting a new name creates a
server-side macro on BOTH calls (the created macro is never added to
the cached collection, so the second lookup misses again): two create
calls, i.e. two remote writes. -/
theorem claim_C3_counterexample :
    (updateOrCreateMacroOp
      (updateOrCreateMacroOp (oneMacroSys "1" "10" "M_A" "x") "M_B" "v")
      "M_B" "v").creates = 2
    ∧ (updateOrCreateMacroOp
      (updateOrCreateMacroOp (oneMacroSys "1" "10" "M_A" "x") "M_B" "v")
      "M_B" "v").updates = 0 :=
  ⟨rfl, rfl⟩

/-- Claim C3 amended: on a host whose macro collection is materialized
with one macro (name n0, value v0), update_or_create_macro behaves as
claimed in the update branches — matching value: no remote call and the
state is unchanged; differing value: exactly one update call, written
through to the server and the local cache, and a repeat call with the
same value is a no-op while a repeat with a further value v2 issues
exactly one additional update — but NOT in the create branch: a call
with an unknown name issues one create per call, so the repeated
identical call issues a second create (the new macro is not added to
the cached collection). -/
theorem claim_C3_amended (mid hid n0 v0 n v v2 : String)
    (hn0 : n0 ≠ "") (hv0 : v0 ≠ "") (hv : v ≠ "") (hnn0 : n ≠ n0)
    (hvv0 : v ≠ v0) (hv2v : v2 ≠ v) :
    updateOrCreateMacroOp (oneMacroSys mid hid n0 v0) n0 v0
        = oneMacroSys mid hid n0 v0
    ∧ updateOrCreateMacroOp (oneMacroSys mid hid n0 v0) n0 v
        = ⟨[macroRec mid hid n0 v], 2,
           [("hostid", Value.vstr hid),
            ("macros", Value.vlist [Value.vdict (macroRec mid hid n0 v0)])],
           [macroRec mid hid n0 v], 0, 1, 0⟩
    ∧ updateOrCreateMacroOp
        (updateOrCreateMacroOp (oneMacroSys mid hid n0 v0) n0 v) n0 v
        = updateOrCreateMacroOp (oneMacroSys mid hid n0 v0) n0 v
    ∧ (updateOrCreateMacroOp
        (updateOrCreateMacroOp (oneMacroSys mid hid n0 v0) n0 v) n0 v2).updates = 2
    ∧ (updateOrCreateMacroOp
        (updateOrCreateMacroOp (oneMacroSys mid hid n0 v0) n0 v) n0 v2).creates = 0
    ∧ (updateOrCreateMacroOp (oneMacroSys mid hid n0 v0) n v).creates = 1
    ∧ (updateOrCreateMacroOp (oneMacroSys mid hid n0 v0) n v).updates = 0
    ∧ (updateOrCreateMacroOp
        (updateOrCreateMacroOp (oneMacroSys mid hid n0 v0) n v) n v).creates = 2 := by
  have b0 : (n0 != "") = true := by simp [hn0]
  have bv0 : (v0 != "") = true := by simp [hv0]
  have bv : (v != "") = true := by simp [hv]
  have bSelf : (n0 == n0) = true := by simp
  have bMiss : (n0 == n) = false := by simp [Ne.symm hnn0]
  have bv0v : (v0 != v) = true := by simp [Ne.symm hvv0]
  have bv0self : (v0 != v0) = false := by simp
  have bvv : (v != v) = false := by simp
  have bvv2 : (v != v2) = true := by simp [Ne.symm hv2v]
  have bmid : (mid == mid) = true := by simp
  have hrange : List.range 1 = [0] := rfl
  have hupd : updateOrCreateMacroOp (oneMacroSys mid hid n0 v0) n0 v
      = ⟨[macroRec mid hid n0 v], 2,
         [("hostid", Value.vstr hid),
          ("macros", Value.vlist [Value.vdict (macroRec mid hid n0 v0)])],
         [macroRec mid hid n0 v], 0, 1, 0⟩ := by
    simp [updateOrCreateMacroOp, getMacroOp, hostMacrosOp, getMacroScan,
      macroFieldAt, setMacroValueAt, oneMacroSys, macroRec, dget, dset,
      truthy, truthyV, pyStr, b0, bv0, bv0v, bSelf, bmid, hrange]
  have hcre : updateOrCreateMacroOp (oneMacroSys mid hid n0 v0) n v
      = ⟨[macroRec mid hid n0 v0,
          [("hostmacroid", Value.vstr (toString (2 : Nat))),
           ("hostid", Value.vstr hid), ("macro", Value.vstr n),
           ("value", Value.vstr v)]], 3,
         [("hostid", Value.vstr hid),
          ("macros", Value.vlist [Value.vdict (macroRec mid hid n0 v0)])],
         [macroRec mid hid n0 v0], 0, 0, 1⟩ := by
    simp [updateOrCreateMacroOp, getMacroOp, hostMacrosOp, getMacroScan,
      macroFieldAt, createMacroOp, oneMacroSys, macroRec, dget, dset,
      truthy, truthyV, pyStr, hostidStr, b0, bMiss, hrange]
  refine ⟨?_, hupd, ?_, ?_, ?_, ?_, ?_, ?_⟩
  · simp [updateOrCreateMacroOp, getMacroOp, hostMacrosOp, getMacroScan,
      macroFieldAt, oneMacroSys, macroRec, dget, truthy, truthyV, pyStr,
      b0, bv0, bSelf, bv0self, hrange]
  · rw [hupd]
    simp [updateOrCreateMacroOp, getMacroOp, hostMacrosOp, getMacroScan,
      macroFieldAt, macroRec, dget, truthy, truthyV, pyStr,
      b0, bv, bSelf, bvv, hrange]
  · rw [hupd]
    simp [updateOrCreateMacroOp, getMacroOp, hostMacrosOp, getMacroScan,
      macroFieldAt, setMacroValueAt, macroRec, dget, dset, truthy, truthyV,
      pyStr, b0, bv, bSelf, bvv2, bmid, hrange]
  · rw [hupd]
    simp [updateOrCreateMacroOp, getMacroOp, hostMacrosOp, getMacroScan,
      macroFieldAt, setMacroValueAt, macroRec, dget, dset, truthy, truthyV,
      pyStr, b0, bv, bSelf, bvv2, bmid, hrange]
  · rw [hcre]
  · rw [hcre]
  · rw [hcre]
    simp [updateOrCreateMacroOp, getMacroOp, hostMacrosOp, getMacroScan,
      macroFieldAt, createMacroOp, macroRec, dget, truthy, truthyV, pyStr,
      hostidStr, b0, bMiss, hrange]

/-- Claim C3 amended, witness at concrete names and values. -/
theorem claim_C3_amended_witness :
    updateOrCreateMacroOp (oneMacroSys "1" "10" "M_A" "x") "M_A" "x"
        = oneMacroSys "1" "10" "M_A" "x"
    ∧ (updateOrCreateMacroOp
        (updateOrCreateMacroOp (oneMacroSys "1" "10" "M_A" "x") "M_A" "v")
        "M_A" "w").updates = 2
    ∧ (updateOrCreateMacroOp (oneMacroSys "1" "10" "M_A" "x") "M_B" "v").creates = 1
    ∧ (updateOrCreateMacroOp
        (updateOrCreateMacroOp (oneMacroSys "1" "10" "M_A" "x") "M_B" "v")
        "M_B" "v").creates = 2 := by
  have h := claim_C3_amended "1" "10" "M_A" "x" "M_B" "v" "w"
    (by decide) (by decide) (by decide) (by decide) (by decide) (by decide)
  exact ⟨h.1, h.2.2.2.1, h.2.2.2.2.2.1, h.2.2.2.2.2.2.2⟩

/- ------------------------------------------------------------------
Claim C10.
------------------------------------------------------------------ -/

/-- Claim C10: zapi_exception declares exactly one parameter, the
ZabbixGroupFactory class body applies it to two arguments
(the log message and logging.CRITICAL), and therefore evaluating the
class bodies of ZabbixFactory.py — importing the module at all —
raises TypeError before any factory operation can be used. -/
theorem claim_C10_import_raises_typeerror :
    zapiExceptionParamCount = 1
    ∧ factoryDecoratorCalls.lookup "ZabbixGroupFactory.__get" = some 2
    ∧ importZabbixFactoryModule = Outcome.exn PyExn.typeError :=
  ⟨rfl, rfl, rfl⟩

end ZabbixObjects
